import Mathlib

/-!
Verification of the core of the fpvsetup repository (monitor geometry,
FOV trigonometry, aspect-ratio catalog and unit conversion).

Embedding conventions:
* `f64` values are modelled as real numbers (`ℝ`); the IEEE-754 rounding of
  the original program is abstracted away, so "equality within floating-point
  tolerance" in the specification becomes exact equality over `ℝ`.
* uom's `Length` is a plain real number holding the magnitude in the base
  unit (meters): `Length::new::<u>(v)` stores `v * coefficient(u)` and
  `get::<u>()` returns `value / coefficient(u)`, where `coefficient(u)` is
  uom's fixed factor converting the unit `u` to meters.
* uom's `Angle` is a plain real number in radians; `.tan()` and `f64::atan`
  are `Real.tan` / `Real.arctan`.
* `[T; 2]` arrays are modelled as pairs, `Option` as `Option`, and the
  `Result<Unit, ()>` of `TryFrom<i32> for Unit` as `Option Unit`
  (`none` is the typed error `Err(())`).
-/

noncomputable section

namespace Fpvsetup

/-- Linear unit enumeration from src/gui/util.rs (`enum Unit`), discriminants
0, 1, 2, 3 in declaration order. -/
inductive Unit where
  | Meters
  | Centimeters
  | Feet
  | Inches
deriving DecidableEq, Repr

/-- uom `Conversion::coefficient()` for the four length units used in
src/gui/util.rs (the `u2f` closure inside `conversion_rate`): the factor
converting a value in the unit to the base unit, meters
(`meter = 1`, `centimeter = 1.0E-2`, `foot = 3.048E-1`, `inch = 2.54E-2`). -/
def coefficient : Unit → ℝ
  | .Meters => 1
  | .Centimeters => 0.01
  | .Feet => 0.3048
  | .Inches => 0.0254

/-- src/gui/util.rs `length_from_unit`: builds a `Length` (meters value) from
a scalar and a unit via `Length::new::<u>(val)`, i.e. `val * coefficient(u)`. -/
def length_from_unit (val : ℝ) (unit : Unit) : ℝ :=
  match unit with
  | .Meters => val * 1
  | .Centimeters => val * 0.01
  | .Feet => val * 0.3048
  | .Inches => val * 0.0254

/-- src/gui/util.rs `convert_units`: extracts the scalar magnitude of a
`Length` in the requested unit via `val.get::<u>()`, i.e.
`val / coefficient(u)`. -/
def convert_units (val : ℝ) (b : Unit) : ℝ :=
  match b with
  | .Meters => val / 1
  | .Centimeters => val / 0.01
  | .Feet => val / 0.3048
  | .Inches => val / 0.0254

/-- src/gui/util.rs `conversion_rate`: `let (a, b) = (u2f(a), u2f(b)); b / a`. -/
def conversion_rate (a b : Unit) : ℝ :=
  coefficient b / coefficient a

/-- src/gui/util.rs `impl TryFrom<i32> for Unit`: the match over the tag,
with the catch-all arm returning the typed error (`Err(())`, here `none`). -/
def Unit.try_from (value : Int) : Option Unit :=
  if value = 0 then some .Meters
  else if value = 1 then some .Centimeters
  else if value = 2 then some .Feet
  else if value = 3 then some .Inches
  else none

/-- src/lib.rs `enum MonitorDimensions`, the dual representation of monitor
dimensions. All lengths are meters values. -/
inductive MonitorDimensions where
  | WidthAndHeight (width height : ℝ)
  | DiagonalAndAspect (diagonal : ℝ) (aspect : ℝ)

/-- src/lib.rs `MonitorDimensions::diagonal_and_aspect_to_width_and_height`:
`height = diagonal / sqrt(aspect^2 + 1); width = height * aspect`. -/
def MonitorDimensions.diagonal_and_aspect_to_width_and_height
    (diagonal : ℝ) (aspect : ℝ) : ℝ × ℝ :=
  let height := diagonal / Real.sqrt (aspect ^ 2 + 1)
  let width := height * aspect
  (width, height)

/-- src/lib.rs `MonitorDimensions::width_and_height`. -/
def MonitorDimensions.width_and_height : MonitorDimensions → ℝ × ℝ
  | .WidthAndHeight width height => (width, height)
  | .DiagonalAndAspect diagonal aspect =>
      diagonal_and_aspect_to_width_and_height diagonal aspect

/-- src/lib.rs `MonitorDimensions::aspect` (`width.get::<meter>() /
height.get::<meter>()` is `width / height` in the meters model). -/
def MonitorDimensions.aspect : MonitorDimensions → ℝ
  | .WidthAndHeight width height => width / height
  | .DiagonalAndAspect _ aspect => aspect

/-- src/lib.rs `MonitorDimensions::diagonal`
(`(width.powi(2) + height.powi(2)).sqrt()`). -/
def MonitorDimensions.diagonal : MonitorDimensions → ℝ
  | .WidthAndHeight width height => Real.sqrt (width ^ 2 + height ^ 2)
  | .DiagonalAndAspect diagonal _ => diagonal

/-- src/lib.rs `MonitorDimensions::as_width_and_height`. -/
def MonitorDimensions.as_width_and_height (d : MonitorDimensions) :
    MonitorDimensions :=
  match d.width_and_height with
  | (width, height) => .WidthAndHeight width height

/-- src/lib.rs `MonitorDimensions::as_diagonal_and_aspect`. -/
def MonitorDimensions.as_diagonal_and_aspect (d : MonitorDimensions) :
    MonitorDimensions :=
  .DiagonalAndAspect d.diagonal d.aspect

/-- src/lib.rs `struct MonitorConfiguration`. -/
structure MonitorConfiguration where
  dimensions : MonitorDimensions
  distance : ℝ

/-- src/lib.rs `MonitorConfiguration::fov`: `opposite = width/2`,
`adjacent = distance`, `half_angle = atan(opposite/adjacent)`, result
`half_angle * 2`. -/
def MonitorConfiguration.fov (c : MonitorConfiguration) : ℝ :=
  let opposite := c.dimensions.width_and_height.1 / 2
  let adjacent := c.distance
  let half_angle := Real.arctan (opposite / adjacent)
  half_angle * 2

/-- src/lib.rs `MonitorConfiguration::monitor_fov_for_distance`, step for
step: the conditional eye distance, the projected half-width and the
re-derived half-angle at the reference distance. -/
def MonitorConfiguration.monitor_fov_for_distance (c : MonitorConfiguration)
    (distance : ℝ) (relative_to_monitor : Bool) : ℝ :=
  let distance_from_eye :=
    if relative_to_monitor then distance + c.distance else distance
  let base_half_angle := c.fov / 2
  let half_width_over_distance := Real.tan base_half_angle
  let half_width := half_width_over_distance * distance_from_eye
  let final_angle_tangent := half_width / distance
  let half_final_angle := Real.arctan final_angle_tangent
  half_final_angle * 2

/-- src/aspect.rs `COMMON_ASPECT_RATIOS`: the fixed catalog produced by
`generate_common_aspect_ratios!`, entries `(n/d, [n, d])` in source order
16:9, 16:10, 4:3, 5:4, 3:2, 17:9, 21:9, 32:9, 1:1, 4:1. -/
def COMMON_ASPECT_RATIOS : List (ℝ × ℝ × ℝ) :=
  [(16 / 9, 16, 9), (16 / 10, 16, 10), (4 / 3, 4, 3), (5 / 4, 5, 4),
   (3 / 2, 3, 2), (17 / 9, 17, 9), (21 / 9, 21, 9), (32 / 9, 32, 9),
   (1 / 1, 1, 1), (4 / 1, 4, 1)]

/-- Helper embedding the iterator chain of src/aspect.rs
`find_common_aspect_ratio` (`.iter().filter(|(r, _)| (ratio - r).abs() <
rounding).map(|(_, [n, d])| [n, d]).next()`): lazily, the first entry passing
the filter, mapped to its numerator/denominator pair. -/
def first_match (q eps : ℝ) : List (ℝ × ℝ × ℝ) → Option (ℝ × ℝ)
  | [] => none
  | e :: rest => if |q - e.1| < eps then some e.2 else first_match q eps rest

/-- src/aspect.rs `find_common_aspect_ratio`. -/
def find_common_aspect_ratio (q eps : ℝ) : Option (ℝ × ℝ) :=
  first_match q eps COMMON_ASPECT_RATIOS

/-- C1: the claim states `conversion_rate(Meters, Centimeters)` returns
exactly `100.0`, but the code computes `coefficient(b) / coefficient(a)` over
uom's to-meter coefficients, which at `(Meters, Centimeters)` is
`0.01 / 1 = 0.01`, not `100`; the reciprocal-product half of the claim
(`conversion_rate(a,b) * conversion_rate(b,a) = 1` for all unit pairs) does
hold. This theorem evaluates the code at the failing input and proves the
part of the claim that survives. -/
theorem conversion_rate_meters_centimeters :
    conversion_rate Unit.Meters Unit.Centimeters = 0.01 ∧
    conversion_rate Unit.Meters Unit.Centimeters ≠ 100 ∧
    ∀ a b : Unit, conversion_rate a b * conversion_rate b a = 1 := by
  refine ⟨by norm_num [conversion_rate, coefficient], by norm_num [conversion_rate, coefficient], ?_⟩
  intro a b
  cases a <;> cases b <;> norm_num [conversion_rate, coefficient]

/-- C3: `monitor_fov_for_distance(distance, relative_to_monitor)` follows
exactly the specified steps: `distance_from_eye` is `distance + self.distance`
when `relative_to_monitor` and `distance` otherwise; the base half-angle is
`fov()/2`; the half-width is `tan(base_half_angle) * distance_from_eye`; the
final half-angle is `atan(half_width / distance)` with `distance` the
reference-distance argument (not `self.distance`); the result doubles it. -/
theorem monitor_fov_for_distance_steps (c : MonitorConfiguration) (d : ℝ)
    (rtm : Bool) :
    c.monitor_fov_for_distance d rtm =
      Real.arctan (Real.tan (c.fov / 2) *
        (if rtm then d + c.distance else d) / d) * 2 := by
  rfl

/-- C5: `fov()` equals `2 * atan((width/2) / distance)` where `width` is the
first component of `dimensions.width_and_height()` and `distance` is the
configuration's viewing distance. -/
theorem fov_formula (c : MonitorConfiguration) :
    c.fov = 2 * Real.arctan (c.dimensions.width_and_height.1 / 2 / c.distance) := by
  simp only [MonitorConfiguration.fov]
  ring

/-- C8: the unit-lookup conversion from an integer tag fails deterministically
(with the typed error, `none`) for every integer outside the closed range
0–3, and succeeds with Meters, Centimeters, Feet, Inches for tags
0, 1, 2, 3 respectively. -/
theorem unit_try_from_spec :
    (∀ n : Int, (n < 0 ∨ 3 < n) → Unit.try_from n = none) ∧
    Unit.try_from 0 = some Unit.Meters ∧
    Unit.try_from 1 = some Unit.Centimeters ∧
    Unit.try_from 2 = some Unit.Feet ∧
    Unit.try_from 3 = some Unit.Inches := by
  refine ⟨?_, rfl, rfl, rfl, rfl⟩
  intro n hn
  unfold Unit.try_from
  rw [if_neg (by omega), if_neg (by omega), if_neg (by omega),
    if_neg (by omega)]

/-- Witness for C8: the lookup at the out-of-range tag 4 indeed errors. -/
theorem unit_try_from_spec_witness :
    ((4 : Int) < 0 ∨ 3 < (4 : Int)) ∧ Unit.try_from 4 = none :=
  ⟨Or.inr (by norm_num), unit_try_from_spec.1 4 (Or.inr (by norm_num))⟩

/-- C9: for every unit `u` and every scalar `x`,
`convert_units(length_from_unit(x, u), u)` reproduces `x` (exactly, in the
real-number model of f64). -/
theorem convert_units_length_from_unit (x : ℝ) (u : Unit) :
    convert_units (length_from_unit x u) u = x := by
  cases u <;> norm_num [convert_units, length_from_unit]

/-- C2: for every positive width and height, converting
`WidthAndHeight{width, height}` with `as_diagonal_and_aspect()` and back with
`as_width_and_height()` reproduces the original width and height (exactly, in
the real-number model of f64), via `diagonal = sqrt(width^2 + height^2)`,
`aspect = width/height`, `height = diagonal / sqrt(aspect^2 + 1)` and
`width = height * aspect`. -/
theorem dimensions_roundtrip (w h : ℝ) (hw : 0 < w) (hh : 0 < h) :
    (MonitorDimensions.WidthAndHeight w h).as_diagonal_and_aspect.as_width_and_height
      = MonitorDimensions.WidthAndHeight w h := by
  have hh0 : h ≠ 0 := hh.ne'
  have hsum : (0 : ℝ) < w ^ 2 + h ^ 2 := by positivity
  have hs : Real.sqrt (w ^ 2 + h ^ 2) ≠ 0 := by positivity
  have e3 : Real.sqrt ((w / h) ^ 2 + 1) = Real.sqrt (w ^ 2 + h ^ 2) / h := by
    rw [show (w / h) ^ 2 + 1 = (w ^ 2 + h ^ 2) / h ^ 2 by field_simp,
      Real.sqrt_div hsum.le, Real.sqrt_sq hh.le]
  have hth : Real.sqrt (w ^ 2 + h ^ 2) / Real.sqrt ((w / h) ^ 2 + 1) = h := by
    rw [e3, div_div_eq_mul_div, mul_comm, mul_div_assoc, div_self hs, mul_one]
  simp only [MonitorDimensions.as_diagonal_and_aspect,
    MonitorDimensions.as_width_and_height, MonitorDimensions.diagonal,
    MonitorDimensions.aspect, MonitorDimensions.width_and_height,
    MonitorDimensions.diagonal_and_aspect_to_width_and_height]
  rw [hth, mul_comm, div_mul_cancel₀ w hh0]

/-- Witness for C2: the round-trip at the concrete 3:4 monitor. -/
theorem dimensions_roundtrip_witness :
    (0 : ℝ) < 3 ∧ (0 : ℝ) < 4 ∧
    (MonitorDimensions.WidthAndHeight 3 4).as_diagonal_and_aspect.as_width_and_height
      = MonitorDimensions.WidthAndHeight 3 4 :=
  ⟨by norm_num, by norm_num,
    dimensions_roundtrip 3 4 (by norm_num) (by norm_num)⟩

/-- C6: with the width fixed positive, `fov()` strictly decreases as the
distance increases over positive distances; with the distance fixed positive,
`fov()` strictly increases as the width increases over positive widths. -/
theorem fov_monotonicity :
    (∀ w h d₁ d₂ : ℝ, 0 < w → 0 < d₁ → d₁ < d₂ →
      (MonitorConfiguration.mk (.WidthAndHeight w h) d₂).fov
        < (MonitorConfiguration.mk (.WidthAndHeight w h) d₁).fov) ∧
    (∀ w₁ w₂ h d : ℝ, 0 < d → 0 < w₁ → w₁ < w₂ →
      (MonitorConfiguration.mk (.WidthAndHeight w₁ h) d).fov
        < (MonitorConfiguration.mk (.WidthAndHeight w₂ h) d).fov) := by
  have hfov : ∀ w h d : ℝ,
      (MonitorConfiguration.mk (.WidthAndHeight w h) d).fov
        = Real.arctan (w / 2 / d) * 2 := by
    intro w h d
    simp [MonitorConfiguration.fov, MonitorDimensions.width_and_height]
  constructor
  · intro w h d₁ d₂ hw hd1 h12
    rw [hfov, hfov]
    have hx : w / 2 / d₂ < w / 2 / d₁ :=
      div_lt_div_of_pos_left (by positivity) hd1 h12
    exact mul_lt_mul_of_pos_right (Real.arctan_strictMono hx) two_pos
  · intro w₁ w₂ h d hd hw1 hw12
    rw [hfov, hfov]
    have hx : w₁ / 2 / d < w₂ / 2 / d := by gcongr
    exact mul_lt_mul_of_pos_right (Real.arctan_strictMono hx) two_pos

/-- Witness for C6: both monotonicity directions at concrete inputs. -/
theorem fov_monotonicity_witness :
    (MonitorConfiguration.mk (.WidthAndHeight 1 1) 2).fov
        < (MonitorConfiguration.mk (.WidthAndHeight 1 1) 1).fov ∧
    (MonitorConfiguration.mk (.WidthAndHeight 1 1) 1).fov
        < (MonitorConfiguration.mk (.WidthAndHeight 2 1) 1).fov :=
  ⟨fov_monotonicity.1 1 1 1 2 (by norm_num) (by norm_num) (by norm_num),
   fov_monotonicity.2 1 2 1 1 (by norm_num) (by norm_num) (by norm_num)⟩

/-- C7: for positive width and distance, `fov()` lies strictly between 0 and
π radians (0° and 180°). -/
theorem fov_bounds (w h d : ℝ) (hw : 0 < w) (hd : 0 < d) :
    0 < (MonitorConfiguration.mk (.WidthAndHeight w h) d).fov ∧
    (MonitorConfiguration.mk (.WidthAndHeight w h) d).fov < Real.pi := by
  have hfov : (MonitorConfiguration.mk (.WidthAndHeight w h) d).fov
      = Real.arctan (w / 2 / d) * 2 := by
    simp [MonitorConfiguration.fov, MonitorDimensions.width_and_height]
  constructor
  · rw [hfov]
    have h0 : (0 : ℝ) < Real.arctan (w / 2 / d) := by
      rw [← Real.arctan_zero]
      exact Real.arctan_strictMono (by positivity)
    linarith
  · rw [hfov]
    have h1 := Real.arctan_lt_pi_div_two (w / 2 / d)
    linarith

/-- Witness for C7: the bounds at the concrete square monitor at distance 1. -/
theorem fov_bounds_witness :
    0 < (MonitorConfiguration.mk (.WidthAndHeight 1 1) 1).fov ∧
    (MonitorConfiguration.mk (.WidthAndHeight 1 1) 1).fov < Real.pi :=
  fov_bounds 1 1 1 (by norm_num) (by norm_num)

/-- C10: with positive width, viewing distance and reference distance, the
eye-relative mode of `monitor_fov_for_distance` is independent of the
reference distance and coincides with `fov()`: the projection to distance `d`
and the re-derivation from distance `d` cancel, because
`atan(tan(fov/2) * d / d) = fov/2`. -/
theorem monitor_fov_eye_relative_eq_fov (c : MonitorConfiguration) (d : ℝ)
    (hw : 0 < c.dimensions.width_and_height.1) (hdist : 0 < c.distance)
    (hd : 0 < d) :
    c.monitor_fov_for_distance d false = c.fov := by
  have hhalf : c.fov / 2
      = Real.arctan (c.dimensions.width_and_height.1 / 2 / c.distance) := by
    simp only [MonitorConfiguration.fov]
    ring
  show Real.arctan (Real.tan (c.fov / 2) *
      (if false then d + c.distance else d) / d) * 2 = c.fov
  rw [if_neg (by simp), hhalf, Real.tan_arctan,
    mul_div_cancel_right₀ _ hd.ne']
  simp only [MonitorConfiguration.fov]

/-- Witness for C10: the coincidence at the concrete square monitor viewed
from 1 meter with reference distance 2 meters. -/
theorem monitor_fov_eye_relative_eq_fov_witness :
    (MonitorConfiguration.mk (.WidthAndHeight 1 1) 1).monitor_fov_for_distance 2 false
      = (MonitorConfiguration.mk (.WidthAndHeight 1 1) 1).fov :=
  monitor_fov_eye_relative_eq_fov (MonitorConfiguration.mk (.WidthAndHeight 1 1) 1) 2
    (by norm_num [MonitorDimensions.width_and_height]) (by norm_num) (by norm_num)

/-- Scanning a catalog yields `none` exactly when no entry is within the
rounding of the queried value. -/
theorem first_match_eq_none_iff (q eps : ℝ) (L : List (ℝ × ℝ × ℝ)) :
    first_match q eps L = none ↔ ∀ e ∈ L, ¬ |q - e.1| < eps := by
  induction L with
  | nil => simp [first_match]
  | cons e rest ih =>
    by_cases hc : |q - e.1| < eps
    · simp [first_match, hc]
    · rw [show first_match q eps (e :: rest) = first_match q eps rest from by
        simp [first_match, hc], ih]
      constructor
      · intro H e' he'
        rcases List.mem_cons.mp he' with rfl | hmem
        · exact hc
        · exact H e' hmem
      · intro H e' he'
        exact H e' (List.mem_cons_of_mem _ he')

/-- Scanning a catalog yields `some p` exactly when some entry is within the
rounding of the queried value, `p` is the pair of the first such entry, and
every earlier entry is outside the rounding: table order wins over
closeness. -/
theorem first_match_eq_some_iff (q eps : ℝ) (p : ℝ × ℝ)
    (L : List (ℝ × ℝ × ℝ)) :
    first_match q eps L = some p ↔
      ∃ (i : ℕ) (ent : ℝ × ℝ × ℝ), L[i]? = some ent ∧ ent.2 = p ∧
        |q - ent.1| < eps ∧
        ∀ (j : ℕ) (ent' : ℝ × ℝ × ℝ), j < i → L[j]? = some ent' →
          ¬ |q - ent'.1| < eps := by
  induction L with
  | nil => simp [first_match]
  | cons e rest ih =>
    by_cases hc : |q - e.1| < eps
    · constructor
      · intro hsome
        have hp : e.2 = p := by
          simpa [first_match, hc] using hsome
        exact ⟨0, e, List.getElem?_cons_zero, hp, hc,
          fun j ent' hj _ => absurd hj (Nat.not_lt_zero j)⟩
      · rintro ⟨i, ent, hget, hp, hlt, hmin⟩
        cases i with
        | zero =>
          rw [List.getElem?_cons_zero, Option.some_inj] at hget
          subst hget
          simp [first_match, hc, hp]
        | succ k =>
          exact absurd hc (hmin 0 e (Nat.succ_pos k) List.getElem?_cons_zero)
    · have hstep : first_match q eps (e :: rest) = first_match q eps rest := by
        simp [first_match, hc]
      rw [hstep, ih]
      constructor
      · rintro ⟨i, ent, hget, hp, hlt, hmin⟩
        refine ⟨i + 1, ent, by rw [List.getElem?_cons_succ]; exact hget,
          hp, hlt, ?_⟩
        intro j ent' hj hg
        cases j with
        | zero =>
          rw [List.getElem?_cons_zero, Option.some_inj] at hg
          subst hg
          exact hc
        | succ m =>
          rw [List.getElem?_cons_succ] at hg
          exact hmin m ent' (by omega) hg
      · rintro ⟨i, ent, hget, hp, hlt, hmin⟩
        cases i with
        | zero =>
          rw [List.getElem?_cons_zero, Option.some_inj] at hget
          subst hget
          exact absurd hlt hc
        | succ k =>
          rw [List.getElem?_cons_succ] at hget
          refine ⟨k, ent, hget, hp, hlt, ?_⟩
          intro j ent' hj hg
          refine hmin (j + 1) ent' (by omega) ?_
          rw [List.getElem?_cons_succ]
          exact hg

/-- C4: `find_common_aspect_ratio` scans the fixed catalog in source order
and returns the numerator/denominator pair of the first entry whose ratio
differs from the input by strictly less than the rounding (table order wins
over closeness), returns `none` when no entry qualifies, and in particular
maps `16/9 + 0.0001` with rounding `0.1` to `[16, 9]` and `1.2345` with
rounding `0.0001` to `None`. -/
theorem find_common_aspect_ratio_spec :
    (∀ q eps : ℝ, ∀ p : ℝ × ℝ,
      find_common_aspect_ratio q eps = some p ↔
        ∃ (i : ℕ) (ent : ℝ × ℝ × ℝ), COMMON_ASPECT_RATIOS[i]? = some ent ∧
          ent.2 = p ∧ |q - ent.1| < eps ∧
          ∀ (j : ℕ) (ent' : ℝ × ℝ × ℝ), j < i →
            COMMON_ASPECT_RATIOS[j]? = some ent' → ¬ |q - ent'.1| < eps) ∧
    (∀ q eps : ℝ,
      find_common_aspect_ratio q eps = none ↔
        ∀ e ∈ COMMON_ASPECT_RATIOS, ¬ |q - e.1| < eps) ∧
    find_common_aspect_ratio (16 / 9 + 0.0001) 0.1 = some (16, 9) ∧
    find_common_aspect_ratio 1.2345 0.0001 = none := by
  refine ⟨fun q eps p => first_match_eq_some_iff q eps p COMMON_ASPECT_RATIOS,
    fun q eps => first_match_eq_none_iff q eps COMMON_ASPECT_RATIOS, ?_, ?_⟩
  · norm_num [find_common_aspect_ratio, COMMON_ASPECT_RATIOS, first_match,
      abs_lt]
  · norm_num [find_common_aspect_ratio, COMMON_ASPECT_RATIOS, first_match,
      abs_lt]

/-- Witness for C4: the no-match branch together with the fact it certifies,
that every catalog entry is farther than 0.0001 from 1.2345. -/
theorem find_common_aspect_ratio_spec_witness :
    find_common_aspect_ratio 1.2345 0.0001 = none ∧
    ∀ e ∈ COMMON_ASPECT_RATIOS, ¬ |(1.2345 : ℝ) - e.1| < 0.0001 :=
  ⟨find_common_aspect_ratio_spec.2.2.2,
    (find_common_aspect_ratio_spec.2.1 1.2345 0.0001).mp
      find_common_aspect_ratio_spec.2.2.2⟩

end Fpvsetup
